import Mathlib

/-!
Verification of the option-contract wrapper
`financepy/products/equity/FinEquityAmericanOption.py`.

The wrapper holds expiry date, strike, option type and a quantity multiplier,
validates its inputs, derives the flat risk-free rate from a discount factor,
and delegates each spot value to the external CRR lattice engine
`crrTreeValAvg`.  Machine floats are modelled by the rationals; the two
external numeric collaborators that are not part of the source under
verification, the natural logarithm used in `np.log` and the lattice engine
`crrTreeValAvg`, are taken as explicit function parameters, so every theorem
below holds for every choice of these collaborators.
-/

namespace FinancePy

/-- Modelled from the spec: the external date collaborator (FinDate).  A date
is represented by its serial day number; subtracting two dates yields the day
difference as an integer. -/
structure FinDate where
  serial : ℤ
deriving DecidableEq, Repr

/-- Day-count difference between two dates, as in the source `d1 - d2`. -/
def FinDate.sub (d1 d2 : FinDate) : ℤ :=
  d1.serial - d2.serial

/-- Modelled from the spec: the day-count denominator `gDaysInYear` from
`finutils/FinGlobalVariables.py` (not under the sources being verified). -/
def gDaysInYear : ℚ := 365

/-- The error object raised by the source (`FinError` carries a message). -/
structure FinError where
  msg : String
deriving DecidableEq, Repr

/-- Modelled from the spec: the `FinOptionTypes` enumeration from
`finutils/FinOptionTypes.py` (not under the sources being verified).  It has
the four variants the contract accepts plus further variants used by other
products; the spec states the style set is a closed enumeration of which
exactly four are accepted here. -/
inductive FinOptionTypes where
  | EUROPEAN_CALL
  | EUROPEAN_PUT
  | AMERICAN_CALL
  | AMERICAN_PUT
  | DIGITAL_CALL
  | DIGITAL_PUT
  | ASIAN_CALL
  | ASIAN_PUT
deriving DecidableEq, Repr

/-- The integer tag of each enumeration member (`.value` in Python), passed
through to the lattice engine. -/
def FinOptionTypes.value : FinOptionTypes → ℕ
  | FinOptionTypes.EUROPEAN_CALL => 1
  | FinOptionTypes.EUROPEAN_PUT => 2
  | FinOptionTypes.AMERICAN_CALL => 3
  | FinOptionTypes.AMERICAN_PUT => 4
  | FinOptionTypes.DIGITAL_CALL => 5
  | FinOptionTypes.DIGITAL_PUT => 6
  | FinOptionTypes.ASIAN_CALL => 7
  | FinOptionTypes.ASIAN_PUT => 8

/-- The Python `str(optionType)` rendering used in the construction error
message. -/
def FinOptionTypes.str : FinOptionTypes → String
  | FinOptionTypes.EUROPEAN_CALL => "FinOptionTypes.EUROPEAN_CALL"
  | FinOptionTypes.EUROPEAN_PUT => "FinOptionTypes.EUROPEAN_PUT"
  | FinOptionTypes.AMERICAN_CALL => "FinOptionTypes.AMERICAN_CALL"
  | FinOptionTypes.AMERICAN_PUT => "FinOptionTypes.AMERICAN_PUT"
  | FinOptionTypes.DIGITAL_CALL => "FinOptionTypes.DIGITAL_CALL"
  | FinOptionTypes.DIGITAL_PUT => "FinOptionTypes.DIGITAL_PUT"
  | FinOptionTypes.ASIAN_CALL => "FinOptionTypes.ASIAN_CALL"
  | FinOptionTypes.ASIAN_PUT => "FinOptionTypes.ASIAN_PUT"

/-- The contract object: the four fields stored by `__init__`. -/
structure FinEquityAmericanOption where
  expiryDate : FinDate
  strikePrice : ℚ
  optionType : FinOptionTypes
  numOptions : ℚ
deriving DecidableEq, Repr

/-- The constructor `FinEquityAmericanOption.__init__` (source lines 33-53).
Typed arguments make the `checkArgumentTypes` guard vacuous; the option-type
guard is translated literally.  Construction either raises a `FinError` or
returns the object with the four fields stored. -/
def init (expiryDate : FinDate) (strikePrice : ℚ)
    (optionType : FinOptionTypes) (numOptions : ℚ) :
    Except FinError FinEquityAmericanOption :=
  if optionType ≠ FinOptionTypes.EUROPEAN_CALL ∧
      optionType ≠ FinOptionTypes.EUROPEAN_PUT ∧
      optionType ≠ FinOptionTypes.AMERICAN_CALL ∧
      optionType ≠ FinOptionTypes.AMERICAN_PUT then
    Except.error (FinError.mk ("Unknown Option Type" ++ optionType.str))
  else
    Except.ok (FinEquityAmericanOption.mk expiryDate strikePrice optionType numOptions)

/-- The constructor applied with the default `numOptions = 1.0`. -/
def initDefault (expiryDate : FinDate) (strikePrice : ℚ)
    (optionType : FinOptionTypes) : Except FinError FinEquityAmericanOption :=
  init expiryDate strikePrice optionType 1

/-- The dual-mode `valueDate` argument: either a calendar date or a raw
year fraction (the source sniffs `type(valueDate) == FinDate`). -/
inductive ValueDateInput where
  | date (d : FinDate)
  | yearFrac (t : ℚ)
deriving DecidableEq, Repr

/-- The dual-mode `stockPrice` argument: a scalar float or a vector. -/
inductive StockInput where
  | scalar (s : ℚ)
  | vector (ss : List ℚ)
deriving DecidableEq, Repr

/-- The return value of `value`: a scalar for scalar spot input, a vector for
vector spot input. -/
inductive FinResult where
  | scalar (v : ℚ)
  | vector (vs : List ℚ)
deriving DecidableEq, Repr

/-- Modelled from the spec: the model-family tag (`_parentType`) carried by
model objects; `FinEquityModelTypes.py` is not under the sources being
verified.  The equity family is one tag among others. -/
inductive ModelFamily where
  | FinEquityModel
  | otherFamily
deriving DecidableEq, Repr

/-- Modelled from the spec: the concrete model class.  The Black-Scholes
variant carries `_volatility` and `_numStepsPerYear`; the family also has
other variants the engine does not implement. -/
inductive ModelKind where
  | blackScholes (volatility : ℚ) (numStepsPerYear : ℕ)
  | heston
deriving DecidableEq, Repr

/-- A model object as observed by `value`: its family tag and its concrete
class.  The two are carried independently because the source checks them
independently. -/
structure Model where
  parentType : ModelFamily
  kind : ModelKind
deriving DecidableEq, Repr

/-- `np.any(stockPrice <= 0.0)` (source line 71): for a scalar, the scalar
comparison; for a vector, true when some element is nonpositive. -/
def npAnyLe0 : StockInput → Bool
  | StockInput.scalar s => decide (s ≤ 0)
  | StockInput.vector ss => ss.any (fun s => decide (s ≤ 0))

/-- `np.any` applied to a scalar float: true exactly when the value is
nonzero. -/
def npAnyScalar (x : ℚ) : Bool :=
  decide (x ≠ 0)

/-- Numeric coercion of a Python/NumPy boolean when it is compared with a
float: `True` is 1, `False` is 0. -/
def boolToRat (b : Bool) : ℚ :=
  if b then 1 else 0

/-- The literal `1e-10` used as the numerical floor. -/
def eps10 : ℚ := 1 / 10 ^ 10

/-- The scalar case of `np.maximum`: the larger of its two arguments. -/
def npMaximum (a b : ℚ) : ℚ :=
  if a < b then b else a

/-- The floored time to expiry, `np.maximum(texp, 1e-10)` (source line 80). -/
def flooredTexp (t : ℚ) : ℚ :=
  npMaximum t eps10

/-- The time to expiry derived from the dual-mode `valueDate` argument
(source lines 66-69): day difference over `gDaysInYear` for a calendar date,
the raw value otherwise. -/
def texpOf (c : FinEquityAmericanOption) : ValueDateInput → ℚ
  | ValueDateInput.date d => ((c.expiryDate.sub d : ℤ) : ℚ) / gDaysInYear
  | ValueDateInput.yearFrac t => t

/-- The signature of the external lattice engine `crrTreeValAvg`
(`models/FinModelCRRTree.py`, not under the sources being verified):
arguments `(s, r, q, volatility, numStepsPerYear, texp, optionTypeValue, K)`
returning the unit option value. -/
def CrrEngine : Type :=
  ℚ → ℚ → ℚ → ℚ → ℕ → ℚ → ℕ → ℚ → ℚ

/-- The method `FinEquityAmericanOption.value` (source lines 57-120),
translated statement by statement.  The external collaborators `log`
(for `np.log`) and `crr` (the lattice engine) are parameters.  Note that
source line 93 reads `np.any(volatility) < 0.0`: it compares the boolean
result of `np.any` with the float zero, which is rendered literally here. -/
def value (c : FinEquityAmericanOption) (valueDate : ValueDateInput)
    (stockPrice : StockInput) (discountCurve : FinDate → ℚ)
    (dividendYield : ℚ) (model : Model)
    (log : ℚ → ℚ) (crr : CrrEngine) : Except FinError FinResult :=
  let texp := texpOf c valueDate
  if npAnyLe0 stockPrice then
    Except.error (FinError.mk ("Stock price must be greater than zero."))
  else if model.parentType ≠ ModelFamily.FinEquityModel then
    Except.error (FinError.mk ("Model is not inherited off type FinEquityModel."))
  else if texp < 0 then
    Except.error (FinError.mk ("Time to expiry must be positive."))
  else
    let texp2 := flooredTexp texp
    let df := discountCurve c.expiryDate
    let r := -(log df) / texp2
    let q := dividendYield
    let K := c.strikePrice
    match model.kind with
    | ModelKind.blackScholes volatility numStepsPerYear =>
      if boolToRat (npAnyScalar volatility) < 0 then
        Except.error (FinError.mk ("Volatility should not be negative."))
      else
        let vol2 := npMaximum volatility eps10
        let sArray : List ℚ :=
          match stockPrice with
          | StockInput.scalar s => [s]
          | StockInput.vector ss => ss
        let vals := sArray.map (fun s =>
          crr s r q vol2 numStepsPerYear texp2 c.optionType.value K)
        let scaled := vals.map (fun v => v * c.numOptions)
        match stockPrice with
        | StockInput.scalar _ => Except.ok (FinResult.scalar (scaled.headD 0))
        | StockInput.vector _ => Except.ok (FinResult.vector scaled)
    | ModelKind.heston => Except.error (FinError.mk ("Unknown Model Type"))

/-- Stateful view of the method call: the method receives the contract
(`self`) and returns the result together with the contract after the call.
The source body of `value` contains no assignment to any `self` field, so
the post-state is the contract it received. -/
def valueCall (c : FinEquityAmericanOption) (valueDate : ValueDateInput)
    (stockPrice : StockInput) (discountCurve : FinDate → ℚ)
    (dividendYield : ℚ) (model : Model)
    (log : ℚ → ℚ) (crr : CrrEngine) :
    Except FinError FinResult × FinEquityAmericanOption :=
  (value c valueDate stockPrice discountCurve dividendYield model log crr, c)

/-- The value of one unit of the option at a single spot, as the source
computes it inside the pricing loop: the lattice engine applied at the
derived rate, the dividend yield, the floored volatility and the floored
time to expiry. -/
def unitLatticeValue (c : FinEquityAmericanOption) (vd : ValueDateInput)
    (discountCurve : FinDate → ℚ) (dividendYield vol : ℚ) (nsteps : ℕ)
    (log : ℚ → ℚ) (crr : CrrEngine) (s : ℚ) : ℚ :=
  crr s (-(log (discountCurve c.expiryDate)) / flooredTexp (texpOf c vd))
    dividendYield (npMaximum vol eps10) nsteps (flooredTexp (texpOf c vd))
    c.optionType.value c.strikePrice

/-! Concrete fixtures used by the witness theorems. -/

/-- A concrete contract: expiry at serial day 0, strike 100, American put,
one option. -/
def wContract : FinEquityAmericanOption :=
  FinEquityAmericanOption.mk (FinDate.mk 0) 100 FinOptionTypes.AMERICAN_PUT 1

/-- A concrete discount curve returning discount factor 1 at every date. -/
def wCurve : FinDate → ℚ := fun _ => 1

/-- A concrete stand-in for the logarithm collaborator. -/
def wLog : ℚ → ℚ := fun _ => 0

/-- A concrete lattice engine returning the volatility argument it
received, used to observe what volatility the wrapper passes down. -/
def crrVol : CrrEngine := fun _ _ _ v _ _ _ _ => v

/-- A concrete lattice engine returning the spot argument it received. -/
def crrSpot : CrrEngine := fun s _ _ _ _ _ _ _ => s

/-- The boolean-against-float comparison is never negative: a Python or
NumPy boolean coerces to 0 or 1. -/
theorem boolToRat_not_neg (b : Bool) : ¬ boolToRat b < 0 := by
  cases b <;> norm_num [boolToRat]

/-- C4: a call to `value` whose spot input is zero or negative, or is a
vector with at least one nonpositive element, returns the error that the
stock price must be greater than zero.  The lattice engine parameter `crr`
is universally quantified and the error does not depend on it, so the engine
is never consulted. -/
theorem value_rejects_nonpositive_spot
    (c : FinEquityAmericanOption) (vd : ValueDateInput) (sp : StockInput)
    (dc : FinDate → ℚ) (divY : ℚ) (m : Model) (log : ℚ → ℚ) (crr : CrrEngine)
    (h : (∃ s, sp = StockInput.scalar s ∧ s ≤ 0) ∨
         (∃ ss s, sp = StockInput.vector ss ∧ s ∈ ss ∧ s ≤ 0)) :
    value c vd sp dc divY m log crr
      = Except.error (FinError.mk ("Stock price must be greater than zero.")) := by
  have hb : npAnyLe0 sp = true := by
    rcases h with ⟨s, rfl, hs⟩ | ⟨ss, s, rfl, hmem, hs⟩
    · simpa [npAnyLe0] using hs
    · simp only [npAnyLe0, List.any_eq_true, decide_eq_true_eq]
      exact ⟨s, hmem, hs⟩
  simp [value, hb]

/-- C4 witness: spot 0 is rejected. -/
theorem value_rejects_nonpositive_spot_witness :
    value wContract (ValueDateInput.yearFrac 1) (StockInput.scalar 0) wCurve 0
      (Model.mk ModelFamily.FinEquityModel (ModelKind.blackScholes 1 100)) wLog crrSpot
      = Except.error (FinError.mk ("Stock price must be greater than zero.")) :=
  value_rejects_nonpositive_spot wContract (ValueDateInput.yearFrac 1)
    (StockInput.scalar 0) wCurve 0
    (Model.mk ModelFamily.FinEquityModel (ModelKind.blackScholes 1 100)) wLog crrSpot
    (Or.inl ⟨0, rfl, le_refl 0⟩)

/-- C6: construction fails exactly when the option type is outside the four
recognised variants; for any of the four it succeeds and stores expiry,
strike, type and quantity unchanged, and the default quantity is 1. -/
theorem init_option_type_validation
    (e : FinDate) (k : ℚ) (t : FinOptionTypes) (n : ℚ) :
    (¬(t = FinOptionTypes.EUROPEAN_CALL ∨ t = FinOptionTypes.EUROPEAN_PUT ∨
        t = FinOptionTypes.AMERICAN_CALL ∨ t = FinOptionTypes.AMERICAN_PUT) →
      init e k t n = Except.error (FinError.mk ("Unknown Option Type" ++ t.str)))
    ∧ ((t = FinOptionTypes.EUROPEAN_CALL ∨ t = FinOptionTypes.EUROPEAN_PUT ∨
        t = FinOptionTypes.AMERICAN_CALL ∨ t = FinOptionTypes.AMERICAN_PUT) →
      init e k t n = Except.ok (FinEquityAmericanOption.mk e k t n))
    ∧ initDefault e k t = init e k t 1 := by
  refine ⟨?_, ?_, rfl⟩
  · intro h
    cases t <;> simp_all [init]
  · intro h
    cases t <;> simp_all [init]

/-- C6 witness: a digital call is rejected, a European call is stored with
the default quantity 1. -/
theorem init_option_type_validation_witness :
    init (FinDate.mk 0) 100 FinOptionTypes.DIGITAL_CALL 1
      = Except.error (FinError.mk ("Unknown Option Type" ++ FinOptionTypes.DIGITAL_CALL.str))
    ∧ initDefault (FinDate.mk 0) 100 FinOptionTypes.EUROPEAN_CALL
      = Except.ok (FinEquityAmericanOption.mk (FinDate.mk 0) 100 FinOptionTypes.EUROPEAN_CALL 1) := by
  constructor
  · exact (init_option_type_validation (FinDate.mk 0) 100 FinOptionTypes.DIGITAL_CALL 1).1
      (by intro h; rcases h with h | h | h | h <;> exact FinOptionTypes.noConfusion h)
  · have h := init_option_type_validation (FinDate.mk 0) 100 FinOptionTypes.EUROPEAN_CALL 1
    exact h.2.2.trans (h.2.1 (Or.inl rfl))

/-- C8: when the `valueDate` argument is a calendar date the time to expiry
is the day difference to expiry over `gDaysInYear`; when it is a raw year
fraction it is used directly; and `value` with a date behaves exactly as
`value` with the corresponding year fraction. -/
theorem value_dual_mode_time
    (c : FinEquityAmericanOption) (d : FinDate) (t : ℚ) (sp : StockInput)
    (dc : FinDate → ℚ) (divY : ℚ) (m : Model) (log : ℚ → ℚ) (crr : CrrEngine) :
    texpOf c (ValueDateInput.date d) = ((c.expiryDate.sub d : ℤ) : ℚ) / gDaysInYear
    ∧ texpOf c (ValueDateInput.yearFrac t) = t
    ∧ value c (ValueDateInput.date d) sp dc divY m log crr
        = value c (ValueDateInput.yearFrac (((c.expiryDate.sub d : ℤ) : ℚ) / gDaysInYear))
            sp dc divY m log crr :=
  ⟨rfl, rfl, rfl⟩

/-- C9: the method call returns the contract unchanged, its result is the
pure function `value` of the call inputs, and the result depends only on the
four stored fields of the contract. -/
theorem value_no_side_effects
    (c : FinEquityAmericanOption) (vd : ValueDateInput) (sp : StockInput)
    (dc : FinDate → ℚ) (divY : ℚ) (m : Model) (log : ℚ → ℚ) (crr : CrrEngine) :
    (valueCall c vd sp dc divY m log crr).2 = c
    ∧ (valueCall c vd sp dc divY m log crr).1 = value c vd sp dc divY m log crr
    ∧ ∀ c2 : FinEquityAmericanOption,
        c2.expiryDate = c.expiryDate → c2.strikePrice = c.strikePrice →
        c2.optionType = c.optionType → c2.numOptions = c.numOptions →
        value c2 vd sp dc divY m log crr = value c vd sp dc divY m log crr := by
  refine ⟨rfl, rfl, ?_⟩
  intro c2 h1 h2 h3 h4
  have hc : c2 = c := by
    cases c2
    cases c
    simp_all
  rw [hc]

/-- C9 witness: a concrete call leaves the contract unchanged and two
contracts with the same fields give the same result. -/
theorem value_no_side_effects_witness :
    (valueCall wContract (ValueDateInput.yearFrac 1) (StockInput.scalar 100) wCurve 0
        (Model.mk ModelFamily.FinEquityModel (ModelKind.blackScholes 1 100)) wLog crrSpot).2
      = wContract
    ∧ value wContract (ValueDateInput.yearFrac 1) (StockInput.scalar 100) wCurve 0
        (Model.mk ModelFamily.FinEquityModel (ModelKind.blackScholes 1 100)) wLog crrSpot
      = value wContract (ValueDateInput.yearFrac 1) (StockInput.scalar 100) wCurve 0
        (Model.mk ModelFamily.FinEquityModel (ModelKind.blackScholes 1 100)) wLog crrSpot :=
  ⟨(value_no_side_effects wContract (ValueDateInput.yearFrac 1) (StockInput.scalar 100)
      wCurve 0 (Model.mk ModelFamily.FinEquityModel (ModelKind.blackScholes 1 100))
      wLog crrSpot).1,
   (value_no_side_effects wContract (ValueDateInput.yearFrac 1) (StockInput.scalar 100)
      wCurve 0 (Model.mk ModelFamily.FinEquityModel (ModelKind.blackScholes 1 100))
      wLog crrSpot).2.2 wContract rfl rfl rfl rfl⟩

/-- C10: under the precondition that the time to expiry is nonnegative, the
floored time to expiry used as the denominator of the rate derivation in
`value` is at least `1e-10`, in particular positive and nonzero, so the
division deriving the rate is never a division by zero. -/
theorem flooredTexp_never_zero (t : ℚ) (_ht : 0 ≤ t) :
    eps10 ≤ flooredTexp t ∧ 0 < flooredTexp t ∧ flooredTexp t ≠ 0
    ∧ ∀ x : ℚ, x / flooredTexp t * flooredTexp t = x := by
  have he : 0 < eps10 := by norm_num [eps10]
  have hle : eps10 ≤ flooredTexp t := by
    unfold flooredTexp npMaximum
    split
    · exact le_refl eps10
    · exact le_of_not_lt (by assumption)
  have hpos : 0 < flooredTexp t := lt_of_lt_of_le he hle
  exact ⟨hle, hpos, ne_of_gt hpos, fun x => div_mul_cancel₀ x (ne_of_gt hpos)⟩

/-- C10 witness: at time to expiry exactly zero the floored value is
positive and division by it is exact. -/
theorem flooredTexp_never_zero_witness :
    0 < flooredTexp 0 ∧ (1 : ℚ) / flooredTexp 0 * flooredTexp 0 = 1 :=
  ⟨(flooredTexp_never_zero 0 (le_refl 0)).2.1,
   (flooredTexp_never_zero 0 (le_refl 0)).2.2.2 1⟩

/-- C7: with the spot check passing, a model whose family tag is not the
equity family is rejected with the family error, and an equity-family model
that is not the Black-Scholes variant is rejected with the unknown-model
error; the engine parameter is universally quantified and neither error
depends on it, so the lattice engine is never invoked. -/
theorem value_model_checks
    (c : FinEquityAmericanOption) (vd : ValueDateInput) (sp : StockInput)
    (dc : FinDate → ℚ) (divY : ℚ) (m : Model) (log : ℚ → ℚ) (crr : CrrEngine)
    (hs : npAnyLe0 sp = false) :
    (m.parentType ≠ ModelFamily.FinEquityModel →
      value c vd sp dc divY m log crr
        = Except.error (FinError.mk ("Model is not inherited off type FinEquityModel.")))
    ∧ (m.parentType = ModelFamily.FinEquityModel → 0 ≤ texpOf c vd →
        m.kind = ModelKind.heston →
      value c vd sp dc divY m log crr
        = Except.error (FinError.mk ("Unknown Model Type"))) := by
  constructor
  · intro hm
    simp [value, hs, hm]
  · intro hm ht hk
    simp [value, hs, hm, hk, not_lt.mpr ht]

/-- C7 witness: a wrong-family model and an equity-family non-Black-Scholes
model are both rejected with the stated errors. -/
theorem value_model_checks_witness :
    value wContract (ValueDateInput.yearFrac 1) (StockInput.scalar 100) wCurve 0
        (Model.mk ModelFamily.otherFamily ModelKind.heston) wLog crrSpot
      = Except.error (FinError.mk ("Model is not inherited off type FinEquityModel."))
    ∧ value wContract (ValueDateInput.yearFrac 1) (StockInput.scalar 100) wCurve 0
        (Model.mk ModelFamily.FinEquityModel ModelKind.heston) wLog crrSpot
      = Except.error (FinError.mk ("Unknown Model Type")) := by
  constructor
  · exact (value_model_checks wContract (ValueDateInput.yearFrac 1) (StockInput.scalar 100)
      wCurve 0 (Model.mk ModelFamily.otherFamily ModelKind.heston) wLog crrSpot
      (by norm_num [npAnyLe0])).1 (by intro h; exact ModelFamily.noConfusion h)
  · exact (value_model_checks wContract (ValueDateInput.yearFrac 1) (StockInput.scalar 100)
      wCurve 0 (Model.mk ModelFamily.FinEquityModel ModelKind.heston) wLog crrSpot
      (by norm_num [npAnyLe0])).2 rfl (by norm_num [texpOf]) rfl

/-- C5: with a positive scalar spot and an equity-family model, a negative
time to expiry is rejected with the stated error, while a time to expiry of
exactly zero is accepted: the valuation proceeds with the time floored to
`eps10 = 1e-10`, which is what the lattice engine receives both as the time
argument and inside the rate denominator. -/
theorem value_time_validation
    (c : FinEquityAmericanOption) (vd : ValueDateInput) (s : ℚ)
    (dc : FinDate → ℚ) (divY : ℚ) (m : Model) (log : ℚ → ℚ) (crr : CrrEngine)
    (hs : 0 < s) (hm : m.parentType = ModelFamily.FinEquityModel) :
    (texpOf c vd < 0 →
      value c vd (StockInput.scalar s) dc divY m log crr
        = Except.error (FinError.mk ("Time to expiry must be positive.")))
    ∧ (texpOf c vd = 0 → ∀ vol nsteps, m.kind = ModelKind.blackScholes vol nsteps →
      value c vd (StockInput.scalar s) dc divY m log crr
        = Except.ok (FinResult.scalar
            (crr s (-(log (dc c.expiryDate)) / eps10) divY (npMaximum vol eps10)
              nsteps eps10 c.optionType.value c.strikePrice * c.numOptions))) := by
  have hsp : npAnyLe0 (StockInput.scalar s) = false := by
    simp [npAnyLe0, not_le.mpr hs]
  constructor
  · intro ht
    simp [value, hsp, hm, ht]
  · intro ht vol nsteps hk
    have hfloor : flooredTexp 0 = eps10 := by
      norm_num [flooredTexp, npMaximum, eps10]
    simp [value, hsp, hm, hk, ht, boolToRat_not_neg, hfloor]

/-- C5 witness: with spot 100 a year fraction of -1 is rejected and a year
fraction of exactly 0 is priced at the floored time `eps10`. -/
theorem value_time_validation_witness :
    value wContract (ValueDateInput.yearFrac (-1)) (StockInput.scalar 100) wCurve 0
        (Model.mk ModelFamily.FinEquityModel (ModelKind.blackScholes 1 100)) wLog crrSpot
      = Except.error (FinError.mk ("Time to expiry must be positive."))
    ∧ value wContract (ValueDateInput.yearFrac 0) (StockInput.scalar 100) wCurve 0
        (Model.mk ModelFamily.FinEquityModel (ModelKind.blackScholes 1 100)) wLog crrSpot
      = Except.ok (FinResult.scalar
          (crrSpot 100 (-(wLog (wCurve wContract.expiryDate)) / eps10) 0
            (npMaximum 1 eps10) 100 eps10 wContract.optionType.value
            wContract.strikePrice * wContract.numOptions)) := by
  constructor
  · exact (value_time_validation wContract (ValueDateInput.yearFrac (-1)) 100 wCurve 0
      (Model.mk ModelFamily.FinEquityModel (ModelKind.blackScholes 1 100)) wLog crrSpot
      (by norm_num) rfl).1 (by norm_num [texpOf])
  · exact (value_time_validation wContract (ValueDateInput.yearFrac 0) 100 wCurve 0
      (Model.mk ModelFamily.FinEquityModel (ModelKind.blackScholes 1 100)) wLog crrSpot
      (by norm_num) rfl).2 rfl 1 100 rfl

/-- C3: for a valid call with a Black-Scholes model, the rate handed to the
lattice engine is `-log(df) / T` where `df` is the discount factor the curve
returns at the contract expiry date and `T` is the floored time to
expiry. -/
theorem value_rate_derivation
    (c : FinEquityAmericanOption) (vd : ValueDateInput) (s : ℚ)
    (dc : FinDate → ℚ) (divY vol : ℚ) (nsteps : ℕ) (log : ℚ → ℚ) (crr : CrrEngine)
    (hs : 0 < s) (ht : 0 ≤ texpOf c vd) :
    value c vd (StockInput.scalar s) dc divY
        (Model.mk ModelFamily.FinEquityModel (ModelKind.blackScholes vol nsteps)) log crr
      = Except.ok (FinResult.scalar
          (crr s (-(log (dc c.expiryDate)) / flooredTexp (texpOf c vd)) divY
            (npMaximum vol eps10) nsteps (flooredTexp (texpOf c vd))
            c.optionType.value c.strikePrice * c.numOptions)) := by
  have hsp : npAnyLe0 (StockInput.scalar s) = false := by
    simp [npAnyLe0, not_le.mpr hs]
  simp [value, hsp, not_lt.mpr ht, boolToRat_not_neg]

/-- C3 witness: a concrete valid call receives the rate built from the
discount factor at expiry over the floored time. -/
theorem value_rate_derivation_witness :
    value wContract (ValueDateInput.yearFrac 1) (StockInput.scalar 100) wCurve 0
        (Model.mk ModelFamily.FinEquityModel (ModelKind.blackScholes 1 100)) wLog crrSpot
      = Except.ok (FinResult.scalar
          (crrSpot 100 (-(wLog (wCurve wContract.expiryDate)) / flooredTexp
              (texpOf wContract (ValueDateInput.yearFrac 1))) 0
            (npMaximum 1 eps10) 100
            (flooredTexp (texpOf wContract (ValueDateInput.yearFrac 1)))
            wContract.optionType.value wContract.strikePrice
            * wContract.numOptions)) :=
  value_rate_derivation wContract (ValueDateInput.yearFrac 1) 100 wCurve 0 1 100
    wLog crrSpot (by norm_num) (by norm_num [texpOf])

/-- C1: for a valid call with a Black-Scholes model, pricing a spot vector
returns the vector of per-spot lattice values scaled by the quantity,
aligned index for index with the input (the map preserves order and length),
and each entry equals what pricing that spot alone as a scalar returns. -/
theorem value_vector_scalar_alignment
    (c : FinEquityAmericanOption) (vd : ValueDateInput) (ss : List ℚ)
    (dc : FinDate → ℚ) (divY vol : ℚ) (nsteps : ℕ) (log : ℚ → ℚ) (crr : CrrEngine)
    (hs : ∀ s ∈ ss, 0 < s) (ht : 0 ≤ texpOf c vd) :
    value c vd (StockInput.vector ss) dc divY
        (Model.mk ModelFamily.FinEquityModel (ModelKind.blackScholes vol nsteps)) log crr
      = Except.ok (FinResult.vector
          (ss.map (fun s => unitLatticeValue c vd dc divY vol nsteps log crr s * c.numOptions)))
    ∧ ∀ s ∈ ss,
      value c vd (StockInput.scalar s) dc divY
          (Model.mk ModelFamily.FinEquityModel (ModelKind.blackScholes vol nsteps)) log crr
        = Except.ok (FinResult.scalar
            (unitLatticeValue c vd dc divY vol nsteps log crr s * c.numOptions)) := by
  constructor
  · have hsp : npAnyLe0 (StockInput.vector ss) = false := by
      simp only [npAnyLe0, List.any_eq_false, decide_eq_true_eq]
      intro s hmem
      exact not_le.mpr (hs s hmem)
    simp [value, hsp, not_lt.mpr ht, boolToRat_not_neg, unitLatticeValue,
      List.map_map, Function.comp]
  · intro s hmem
    have hsp : npAnyLe0 (StockInput.scalar s) = false := by
      simp [npAnyLe0, not_le.mpr (hs s hmem)]
    simp [value, hsp, not_lt.mpr ht, boolToRat_not_neg, unitLatticeValue]

/-- C1 witness: the vector [100, 50] is priced entry by entry exactly as the
two scalars are. -/
theorem value_vector_scalar_alignment_witness :
    value wContract (ValueDateInput.yearFrac 1) (StockInput.vector [100, 50]) wCurve 0
        (Model.mk ModelFamily.FinEquityModel (ModelKind.blackScholes 1 100)) wLog crrSpot
      = Except.ok (FinResult.vector
          ([100, 50].map (fun s =>
            unitLatticeValue wContract (ValueDateInput.yearFrac 1) wCurve 0 1 100
              wLog crrSpot s * wContract.numOptions)))
    ∧ value wContract (ValueDateInput.yearFrac 1) (StockInput.scalar 50) wCurve 0
        (Model.mk ModelFamily.FinEquityModel (ModelKind.blackScholes 1 100)) wLog crrSpot
      = Except.ok (FinResult.scalar
          (unitLatticeValue wContract (ValueDateInput.yearFrac 1) wCurve 0 1 100
            wLog crrSpot 50 * wContract.numOptions)) :=
  ⟨(value_vector_scalar_alignment wContract (ValueDateInput.yearFrac 1) [100, 50]
      wCurve 0 1 100 wLog crrSpot
      (by intro s hmem; simp at hmem; rcases hmem with h | h <;> norm_num [h])
      (by norm_num [texpOf])).1,
   (value_vector_scalar_alignment wContract (ValueDateInput.yearFrac 1) [100, 50]
      wCurve 0 1 100 wLog crrSpot
      (by intro s hmem; simp at hmem; rcases hmem with h | h <;> norm_num [h])
      (by norm_num [texpOf])).2 50 (by simp)⟩

/-- C2: the volatility guard on source line 93 reads
`np.any(volatility) < 0.0`, comparing the boolean result of `np.any` with
the float zero, so it never fires; a call with volatility -1 is not
rejected: the volatility is floored to `npMaximum (-1) eps10 = eps10` and
priced.  The engine fixture returns the volatility it receives, so the
returned value exhibits the floored volatility. -/
theorem value_negative_volatility_not_rejected :
    (∀ v : ℚ, decide (boolToRat (npAnyScalar v) < 0) = false)
    ∧ value wContract (ValueDateInput.yearFrac 1) (StockInput.scalar 100) wCurve 0
        (Model.mk ModelFamily.FinEquityModel (ModelKind.blackScholes (-1) 100)) wLog crrVol
      = Except.ok (FinResult.scalar (npMaximum (-1) eps10 * 1))
    ∧ npMaximum (-1) eps10 = eps10 := by
  refine ⟨?_, ?_, ?_⟩
  · intro v
    exact decide_eq_false (boolToRat_not_neg (npAnyScalar v))
  · norm_num [value, npAnyLe0, texpOf, boolToRat_not_neg, wContract, wCurve, wLog, crrVol]
  · norm_num [npMaximum, eps10]

end FinancePy
